import Mathlib

/-!
Shallow embedding of the BCM protocol encoding/decoding layer of the
CAN/CAN-FD Broadcast Manager example (CANFD_BCM_Example.c and its
sibling iterations).  The definitions below are translated from the
most complete iteration of the example source; each definition carries
a comment naming the C function or struct it embeds.  Machine integers
are modelled as Nat (all values involved are small and no arithmetic
overflow can occur in the translated code paths); the byte buffers the
C code builds with malloc/memset/field assignments are modelled as
records whose construction starts from an all-zero record (the memset)
followed by exactly the field assignments the C performs.
-/

namespace CanBcm

/-- struct bcm_timeval: two long fields (tv_sec, tv_usec). -/
structure BcmTimeval where
  tv_sec : Int
  tv_usec : Int
deriving Repr, DecidableEq

/-- The all-zero bcm_timeval produced by memset. -/
def zeroTimeval : BcmTimeval := ⟨0, 0⟩

/-- struct canfd_frame: can_id (canid_t), len (u8), flags (u8), data[64].
The data field is the payload byte area; the example code treats it as an
opaque byte sequence. -/
structure CanfdFrame where
  can_id : Nat
  len : Nat
  flags : Nat
  data : List Nat
deriving Repr, DecidableEq

/-- struct can_frame: can_id (canid_t), can_dlc (u8), data[8]. -/
structure CanFrame where
  can_id : Nat
  can_dlc : Nat
  data : List Nat
deriving Repr, DecidableEq

/-- An all-zero canfd_frame (result of memset over the frame area). -/
def zeroCanfdFrame : CanfdFrame := ⟨0, 0, 0, List.replicate 64 0⟩

/-- An all-zero can_frame (result of memset over the frame area). -/
def zeroCanFrame : CanFrame := ⟨0, 0, List.replicate 8 0⟩

/-- The reinterpreting cast (struct can_frame *) &frame used throughout the
example: the two layouts share the identifier word at offset 0, the length
byte at offset 4 and the first 8 data bytes at offset 8, so the classic view
of a canfd_frame keeps can_id, reads len as can_dlc and keeps the first 8
payload bytes. -/
def asCanFrame (f : CanfdFrame) : CanFrame := ⟨f.can_id, f.len, f.data.take 8⟩

/-- MAXFRAMES from the example source: capacity of the multi-frame structs. -/
def MAXFRAMES : Nat := 256

/-- Opcode TX_SETUP from linux/can/bcm.h. -/
def TX_SETUP : Nat := 1

/-- Opcode TX_DELETE from linux/can/bcm.h. -/
def TX_DELETE : Nat := 2

/-- Opcode TX_SEND from linux/can/bcm.h. -/
def TX_SEND : Nat := 4

/-- Opcode RX_SETUP from linux/can/bcm.h. -/
def RX_SETUP : Nat := 7

/-- Opcode RX_DELETE from linux/can/bcm.h. -/
def RX_DELETE : Nat := 8

/-- Opcode RX_TIMEOUT from linux/can/bcm.h. -/
def RX_TIMEOUT : Nat := 11

/-- Opcode RX_CHANGED from linux/can/bcm.h. -/
def RX_CHANGED : Nat := 12

/-- Flag SETTIMER from linux/can/bcm.h. -/
def SETTIMER : Nat := 0x0001

/-- Flag STARTTIMER from linux/can/bcm.h. -/
def STARTTIMER : Nat := 0x0002

/-- Flag TX_ANNOUNCE from linux/can/bcm.h. -/
def TX_ANNOUNCE : Nat := 0x0008

/-- Flag RX_FILTER_ID from linux/can/bcm.h. -/
def RX_FILTER_ID : Nat := 0x0020

/-- Flag CAN_FD_FRAME from linux/can/bcm.h. -/
def CAN_FD_FRAME : Nat := 0x0800

/-- errno value EAGAIN on Linux. -/
def EAGAIN : Nat := 11

/-- errno value EWOULDBLOCK on Linux (identical to EAGAIN). -/
def EWOULDBLOCK : Nat := 11

/-- struct bcm_msg_head: opcode, flags, count (u32), ival1, ival2
(bcm_timeval), can_id (canid_t), nframes (u32). -/
structure BcmMsgHead where
  opcode : Nat
  flags : Nat
  count : Nat
  ival1 : BcmTimeval
  ival2 : BcmTimeval
  can_id : Nat
  nframes : Nat
deriving Repr, DecidableEq

/-- The all-zero bcm_msg_head produced by memset(msg, 0, msgSize). -/
def zeroMsgHead : BcmMsgHead := ⟨0, 0, 0, zeroTimeval, zeroTimeval, 0, 0⟩

/-- sizeof(struct bcm_msg_head) on the 64-bit target ABI: 4+4+4 bytes of
u32 fields, 4 bytes padding, two 16-byte bcm_timeval, 4+4 bytes can_id and
nframes, total 56. -/
def bcmMsgHeadSize : Nat := 56

/-- sizeof(struct can_frame): 16 bytes on the target ABI. -/
def canFrameSize : Nat := 16

/-- sizeof(struct canfd_frame): 72 bytes on the target ABI. -/
def canfdFrameSize : Nat := 72

/-- sizeof(struct bcmMsgSingleFrameCan) = header + classic frame area. -/
def sizeofBcmMsgSingleFrameCan : Nat := bcmMsgHeadSize + canFrameSize

/-- sizeof(struct bcmMsgSingleFrameCanFD) = header + FD frame area. -/
def sizeofBcmMsgSingleFrameCanFD : Nat := bcmMsgHeadSize + canfdFrameSize

/-- One outbound BCM message buffer as the example builds it: a header-only
buffer (bcm_msg_head alone), a single-frame buffer (bcmMsgSingleFrameCan /
bcmMsgSingleFrameCanFD) or a multi-frame buffer (bcmMsgMultipleFramesCan /
bcmMsgMultipleFramesCanFD, whose frame array holds MAXFRAMES slots). -/
inductive BcmMsg where
  | headOnly (head : BcmMsgHead)
  | sfCan (head : BcmMsgHead) (frame : CanFrame)
  | sfCanFD (head : BcmMsgHead) (frame : CanfdFrame)
  | mfCan (head : BcmMsgHead) (frames : List CanFrame)
  | mfCanFD (head : BcmMsgHead) (frames : List CanfdFrame)
deriving Repr, DecidableEq

/-- The bcm_msg_head of a message buffer. -/
def BcmMsg.head : BcmMsg → BcmMsgHead
  | .headOnly h => h
  | .sfCan h _ => h
  | .sfCanFD h _ => h
  | .mfCan h _ => h
  | .mfCanFD h _ => h

/-- The classic frames a message declares it carries: the frame slots the
receiver will read, i.e. the first nframes slots of the classic frame area. -/
def BcmMsg.storedCanFrames : BcmMsg → List CanFrame
  | .sfCan h f => if h.nframes = 1 then [f] else []
  | .mfCan h fs => fs.take h.nframes
  | _ => []

/-- The FD frames a message declares it carries: the first nframes slots of
the FD frame area. -/
def BcmMsg.storedCanfdFrames : BcmMsg → List CanfdFrame
  | .sfCanFD h f => if h.nframes = 1 then [f] else []
  | .mfCanFD h fs => fs.take h.nframes
  | _ => []

/-- Number of embedded frames a message carries. -/
def BcmMsg.storedFrameCount (m : BcmMsg) : Nat :=
  m.storedCanFrames.length + m.storedCanfdFrames.length

/-- The raw classic frame slot array of a buffer (occupied or not). -/
def BcmMsg.canSlots : BcmMsg → List CanFrame
  | .sfCan _ f => [f]
  | .mfCan _ fs => fs
  | _ => []

/-- The raw FD frame slot array of a buffer (occupied or not). -/
def BcmMsg.canfdSlots : BcmMsg → List CanfdFrame
  | .sfCanFD _ f => [f]
  | .mfCanFD _ fs => fs
  | _ => []

/-!
## Notification decoder (processReceive)

processReceive calls recv into a struct bcmMsgSingleFrameCanFD buffer.
The outcome of that call is either a failure (recv returned a negative
value and set errno) or a success delivering nbytes received bytes whose
content fills the buffer.  The buffer content is a bcm_msg_head followed
by the FD-sized frame area.
-/

/-- The receive buffer of processReceive: a struct bcmMsgSingleFrameCanFD. -/
structure RecvBuf where
  msg_head : BcmMsgHead
  canfdFrame : CanfdFrame
deriving Repr, DecidableEq

/-- Outcome of the recv call inside processReceive: either recv returned a
negative value with errno set, or it returned nbytes >= 0 and filled the
buffer. -/
inductive RecvOutcome where
  | fail (errno : Nat)
  | ok (nbytes : Nat) (buf : RecvBuf)
deriving Repr, DecidableEq

/-- Result of one processReceive call.  The three error constructors
correspond to the three distinct error paths of the C function (each with
its own printf before shutdownHandler(ERR_RECV_FAILED, ...)): a genuine
recv failure, the unexpected-number-of-bytes path, and the
unexpected-operation-code path.  wouldBlock is the early return taken when
errno is EAGAIN/EWOULDBLOCK; timeout and contentChange are the calls to
processTimeout and processContentChange. -/
inductive ProcessResult where
  | wouldBlock
  | recvError
  | unexpectedLength
  | unexpectedOpcode
  | timeout (buf : RecvBuf)
  | contentChange (buf : RecvBuf)
deriving Repr, DecidableEq

/-- processReceive: the validity checks and dispatch performed on the
outcome of recv, translated branch for branch from the C source.  Note
that shutdownHandler exits the process, so each error branch ends the
function; the if/else chain below mirrors that. -/
def processReceive (r : RecvOutcome) : ProcessResult :=
  match r with
  | .fail e =>
      if e ≠ EAGAIN ∧ e ≠ EWOULDBLOCK then .recvError
      else .wouldBlock
  | .ok nbytes buf =>
      if nbytes ≠ sizeofBcmMsgSingleFrameCan ∧ nbytes ≠ sizeofBcmMsgSingleFrameCanFD then
        .unexpectedLength
      else if buf.msg_head.opcode ≠ RX_CHANGED ∧ buf.msg_head.opcode ≠ RX_TIMEOUT then
        .unexpectedOpcode
      else if buf.msg_head.opcode = RX_TIMEOUT then
        .timeout buf
      else
        .contentChange buf

/-!
## Message encoders

Each createXxx function in the C source allocates one buffer, zeroes it
with memset, assigns the fields listed in its body and sends the buffer
(once, or once per loop iteration).  The embeddings below return the list
of buffers passed to send, in send order.  Fields never assigned keep
their memset value, i.e. the corresponding field of zeroMsgHead /
zeroCanFrame / zeroCanfdFrame.
-/

/-- The buffer content at the send call of iteration index of createTxSend:
opcode, flags and nframes are assigned once before the loop, can_id and the
single frame slot are overwritten on every iteration. -/
def txSendMsg (isCANFD : Bool) (f : CanfdFrame) : BcmMsg :=
  if isCANFD then
    .sfCanFD { zeroMsgHead with
                 opcode := TX_SEND
                 flags := CAN_FD_FRAME
                 nframes := 1
                 can_id := f.can_id } f
  else
    .sfCan { zeroMsgHead with
               opcode := TX_SEND
               nframes := 1
               can_id := (asCanFrame f).can_id } (asCanFrame f)

/-- createTxSend: one TX_SEND message per input frame, sent in input order
from a single reused single-frame buffer. -/
def createTxSend (frames : List CanfdFrame) (isCANFD : Bool) : List BcmMsg :=
  frames.map (txSendMsg isCANFD)

/-- The buffer content at the send call of iteration index of createTxSetup:
opcode, flags and nframes are assigned once before the loop; can_id, count,
ival1, ival2 and the frame slot are overwritten on every iteration from the
parallel input arrays. -/
def txSetupMsg (isCANFD : Bool) (f : CanfdFrame) (c : Nat) (t1 t2 : BcmTimeval) : BcmMsg :=
  if isCANFD then
    .sfCanFD { opcode := TX_SETUP
               flags := CAN_FD_FRAME ||| SETTIMER ||| STARTTIMER
               count := c
               ival1 := t1
               ival2 := t2
               can_id := f.can_id
               nframes := 1 } f
  else
    .sfCan { opcode := TX_SETUP
             flags := SETTIMER ||| STARTTIMER
             count := c
             ival1 := t1
             ival2 := t2
             can_id := (asCanFrame f).can_id
             nframes := 1 } (asCanFrame f)

/-- The loop of createTxSetup: for index < nframes it reads frames[index],
count[index], ival1[index] and ival2[index] and sends one message.  The C
function receives the arrays as pointers and performs no length check; when
one of the parameter arrays is shorter than the frame array the C code reads
past its end (undefined behaviour).  The embedding walks the four lists in
lock step, accumulating the messages sent so far; reaching the end of a
parameter array before the frame array yields the Boolean false in place of
the out-of-bounds read. -/
def createTxSetupGo (isCANFD : Bool) :
    List CanfdFrame → List Nat → List BcmTimeval → List BcmTimeval → List BcmMsg × Bool
  | [], _, _, _ => ([], true)
  | f :: fs, c :: cs, t1 :: t1s, t2 :: t2s =>
      let r := createTxSetupGo isCANFD fs cs t1s t2s
      (txSetupMsg isCANFD f c t1 t2 :: r.1, r.2)
  | _ :: _, _, _, _ => ([], false)

/-- createTxSetup (the independent-task strategy): one single-frame TX_SETUP
message per input frame, each carrying that frame's can_id and its own
count/ival1/ival2 entry.  The first component is the list of messages sent
before the loop either finishes or hits an out-of-bounds read; the second
component is true exactly when no out-of-bounds read occurs. -/
def createTxSetup (frames : List CanfdFrame) (counts : List Nat)
    (ival1s ival2s : List BcmTimeval) (isCANFD : Bool) : List BcmMsg × Bool :=
  createTxSetupGo isCANFD frames counts ival1s ival2s

/-- createTxSetupSequence: one multi-frame TX_SETUP message.  The header
can_id is read from frames[0] (the C dereferences frames[0] unconditionally,
so the empty-input case is outside the function's contract and is modelled
with the zero frame).  The frame area of the allocated buffer is zeroed by
memset and the input frames are then copied over its first nframes slots. -/
def createTxSetupSequence (frames : List CanfdFrame) (count : Nat)
    (ival1 ival2 : BcmTimeval) (isCANFD : Bool) : List BcmMsg :=
  if isCANFD then
    [.mfCanFD { opcode := TX_SETUP
                flags := CAN_FD_FRAME ||| SETTIMER ||| STARTTIMER
                count := count
                ival1 := ival1
                ival2 := ival2
                can_id := (frames.head?.getD zeroCanfdFrame).can_id
                nframes := frames.length }
       (frames ++ List.replicate (MAXFRAMES - frames.length) zeroCanfdFrame)]
  else
    [.mfCan { opcode := TX_SETUP
              flags := SETTIMER ||| STARTTIMER
              count := count
              ival1 := ival1
              ival2 := ival2
              can_id := (asCanFrame (frames.head?.getD zeroCanfdFrame)).can_id
              nframes := frames.length }
       (frames.map asCanFrame ++ List.replicate (MAXFRAMES - frames.length) zeroCanFrame)]

/-- The buffer content at the send call of iteration index of
createTxSetupUpdate: opcode, flags and nframes are assigned once before the
loop (flags gains TX_ANNOUNCE when announce is set; in the classic branch
flags is otherwise left at its memset value 0); can_id and the frame slot
are overwritten on every iteration. -/
def txSetupUpdateMsg (isCANFD announce : Bool) (f : CanfdFrame) : BcmMsg :=
  if isCANFD then
    .sfCanFD { zeroMsgHead with
                 opcode := TX_SETUP
                 flags := if announce then CAN_FD_FRAME ||| TX_ANNOUNCE else CAN_FD_FRAME
                 nframes := 1
                 can_id := f.can_id } f
  else
    .sfCan { zeroMsgHead with
               opcode := TX_SETUP
               flags := if announce then TX_ANNOUNCE else 0
               nframes := 1
               can_id := (asCanFrame f).can_id } (asCanFrame f)

/-- createTxSetupUpdate: one single-frame TX_SETUP message per input frame
carrying the new payload; neither SETTIMER nor STARTTIMER is set, so the
existing schedule's timers are left untouched. -/
def createTxSetupUpdate (frames : List CanfdFrame) (isCANFD announce : Bool) : List BcmMsg :=
  frames.map (txSetupUpdateMsg isCANFD announce)

/-- createTxDelete: a header-only TX_DELETE message for one CAN ID. -/
def createTxDelete (canID : Nat) (isCANFD : Bool) : List BcmMsg :=
  [.headOnly { zeroMsgHead with
                 opcode := TX_DELETE
                 can_id := canID
                 flags := if isCANFD then CAN_FD_FRAME else 0 }]

/-- createRxSetupCanID: a header-only RX_SETUP message with RX_FILTER_ID. -/
def createRxSetupCanID (canID : Nat) (isCANFD : Bool) : List BcmMsg :=
  [.headOnly { zeroMsgHead with
                 opcode := RX_SETUP
                 can_id := canID
                 flags := if isCANFD then RX_FILTER_ID ||| CAN_FD_FRAME else RX_FILTER_ID }]

/-- createRxSetupMask: a single-frame RX_SETUP message whose frame slot is
the content mask.  The classic branch never assigns flags, leaving the
memset value 0. -/
def createRxSetupMask (canID : Nat) (mask : CanfdFrame) (isCANFD : Bool) : List BcmMsg :=
  if isCANFD then
    [.sfCanFD { zeroMsgHead with
                  opcode := RX_SETUP
                  flags := CAN_FD_FRAME
                  can_id := canID
                  nframes := 1 } mask]
  else
    [.sfCan { zeroMsgHead with
                opcode := RX_SETUP
                can_id := canID
                nframes := 1 } (asCanFrame mask)]

/-- createRxDelete: a header-only RX_DELETE message for one CAN ID. -/
def createRxDelete (canID : Nat) (isCANFD : Bool) : List BcmMsg :=
  [.headOnly { zeroMsgHead with
                 opcode := RX_DELETE
                 can_id := canID
                 flags := if isCANFD then CAN_FD_FRAME else 0 }]

/-!
## Frame construction (modelled from the spec)

The repository contains no Frame constructor: frames are raw C structs
whose fields the caller assigns directly, and no InvalidFrameLength check
or error code exists anywhere in the sources.  The spec's Frame Variant
Model (its section 4.1) specifies the construction contract, so it is
modelled here from the spec's words.
-/

/-- Modelled from the spec: the error kind InvalidFrameLength of the Frame
Variant Model; the repository's C sources contain no frame constructor and
no such error code. -/
inductive FrameError where
  | invalidFrameLength
deriving Repr, DecidableEq

/-- Modelled from the spec: the payload maximum of each frame variant; 8
bytes for a classic frame and 64 bytes for an FD frame. -/
def variantMaxLen (isCANFD : Bool) : Nat :=
  if isCANFD then 64 else 8

/-- Modelled from the spec: constructing a Frame of the given variant from
an identifier and a payload; a payload longer than the variant's maximum is
rejected with InvalidFrameLength before any encode takes place, otherwise
the frame holds the payload with the declared length matching it. -/
def mkFrame (isCANFD : Bool) (canID : Nat) (payload : List Nat) :
    Except FrameError CanfdFrame :=
  if payload.length > variantMaxLen isCANFD then
    .error .invalidFrameLength
  else
    .ok { can_id := canID
          len := payload.length
          flags := 0
          data := payload }

/-!
## Concrete values used in scenario theorems and witnesses

These mirror the test frames and intervals built in main() of the example.
-/

/-- The classic test frame with identifier 0x123 and 4 payload bytes. -/
def exFrame1 : CanfdFrame := ⟨0x123, 4, 0, [0xDE, 0xAD, 0xBE, 0xEF]⟩

/-- The classic test frame with identifier 0x345 and 3 payload bytes. -/
def exFrame2 : CanfdFrame := ⟨0x345, 3, 0, [0xC0, 0xFF, 0xEE]⟩

/-- The short test interval: 0 s, 500 us. -/
def exShort : BcmTimeval := ⟨0, 500⟩

/-- The long test interval: 1 s, 0 us. -/
def exLong : BcmTimeval := ⟨1, 0⟩

/-- A receive buffer whose header carries the given opcode. -/
def exBuf (opc : Nat) : RecvBuf :=
  ⟨{ zeroMsgHead with opcode := opc }, zeroCanfdFrame⟩

/-!
## Decoder theorems
-/

/-- C1: the notification decoder accepts exactly two total byte lengths,
header size plus classic frame size and header size plus FD frame size;
a received buffer of any other length (zero included) takes the
unexpected-number-of-bytes error path and no notification is dispatched. -/
theorem processReceive_length_discrimination (nbytes : Nat) (buf : RecvBuf)
    (h1 : nbytes ≠ bcmMsgHeadSize + canFrameSize)
    (h2 : nbytes ≠ bcmMsgHeadSize + canfdFrameSize) :
    processReceive (.ok nbytes buf) = .unexpectedLength ∧
    (∀ b, processReceive (.ok nbytes buf) ≠ .timeout b ∧
          processReceive (.ok nbytes buf) ≠ .contentChange b) ∧
    processReceive (.ok (bcmMsgHeadSize + canFrameSize) buf) ≠ .unexpectedLength ∧
    processReceive (.ok (bcmMsgHeadSize + canfdFrameSize) buf) ≠ .unexpectedLength := by
  have hmain : processReceive (.ok nbytes buf) = .unexpectedLength := by
    simp [processReceive, sizeofBcmMsgSingleFrameCan, sizeofBcmMsgSingleFrameCanFD, h1, h2]
  refine ⟨hmain, ?_, ?_, ?_⟩
  · intro b
    simp [hmain]
  · simp only [processReceive, sizeofBcmMsgSingleFrameCan, sizeofBcmMsgSingleFrameCanFD]
    split
    · rename_i hc
      exact absurd rfl hc.1
    · split
      · simp
      · split <;> simp
  · simp only [processReceive, sizeofBcmMsgSingleFrameCan, sizeofBcmMsgSingleFrameCanFD]
    split
    · rename_i hc
      exact absurd rfl hc.2
    · split
      · simp
      · split <;> simp

/-- Witness for C1 at the concrete received length 0. -/
theorem processReceive_length_discrimination_witness :
    processReceive (.ok 0 (exBuf RX_CHANGED)) = .unexpectedLength :=
  (processReceive_length_discrimination 0 (exBuf RX_CHANGED) (by decide) (by decide)).1

/-- C4: on a buffer of one of the two legal lengths the decoder reads the
header opcode; an opcode other than RX_CHANGED and RX_TIMEOUT takes the
unexpected-operation-code error path, RX_TIMEOUT invokes the timeout
handler and RX_CHANGED invokes the content-change handler, exactly one of
the two. -/
theorem processReceive_opcode_dispatch (nbytes : Nat) (buf : RecvBuf)
    (hlen : nbytes = bcmMsgHeadSize + canFrameSize ∨ nbytes = bcmMsgHeadSize + canfdFrameSize) :
    (buf.msg_head.opcode ≠ RX_CHANGED → buf.msg_head.opcode ≠ RX_TIMEOUT →
        processReceive (.ok nbytes buf) = .unexpectedOpcode) ∧
    (buf.msg_head.opcode = RX_TIMEOUT →
        processReceive (.ok nbytes buf) = .timeout buf ∧
        processReceive (.ok nbytes buf) ≠ .contentChange buf) ∧
    (buf.msg_head.opcode = RX_CHANGED →
        processReceive (.ok nbytes buf) = .contentChange buf ∧
        processReceive (.ok nbytes buf) ≠ .timeout buf) := by
  have hsz : ¬(nbytes ≠ sizeofBcmMsgSingleFrameCan ∧ nbytes ≠ sizeofBcmMsgSingleFrameCanFD) := by
    rcases hlen with h | h <;>
      simp [h, sizeofBcmMsgSingleFrameCan, sizeofBcmMsgSingleFrameCanFD]
  refine ⟨?_, ?_, ?_⟩
  · intro hc ht
    simp [processReceive, hsz, hc, ht]
  · intro ht
    have hc : buf.msg_head.opcode ≠ RX_CHANGED := by
      simp [ht, RX_TIMEOUT, RX_CHANGED]
    constructor
    · simp [processReceive, hsz, ht, hc]
    · simp [processReceive, hsz, ht, hc]
  · intro hc
    have ht : buf.msg_head.opcode ≠ RX_TIMEOUT := by
      simp [hc, RX_TIMEOUT, RX_CHANGED]
    constructor
    · simp [processReceive, hsz, hc, ht, RX_CHANGED, RX_TIMEOUT]
    · simp [processReceive, hsz, hc, ht, RX_CHANGED, RX_TIMEOUT]

/-- Witness for C4 at the classic length with opcode RX_TIMEOUT. -/
theorem processReceive_opcode_dispatch_witness :
    processReceive (.ok (bcmMsgHeadSize + canFrameSize) (exBuf RX_TIMEOUT)) =
      .timeout (exBuf RX_TIMEOUT) ∧
    processReceive (.ok (bcmMsgHeadSize + canFrameSize) (exBuf RX_TIMEOUT)) ≠
      .contentChange (exBuf RX_TIMEOUT) :=
  (processReceive_opcode_dispatch (bcmMsgHeadSize + canFrameSize) (exBuf RX_TIMEOUT)
    (Or.inl rfl)).2.1 rfl

/-- C5: a receive attempt failing with the would-block errno is treated as
the non-error early return: no notification is dispatched and none of the
error paths is taken; a receive failure with any other errno takes the
receive-error path. -/
theorem processReceive_wouldblock_contract (e : Nat) :
    processReceive (.fail EAGAIN) = .wouldBlock ∧
    processReceive (.fail EWOULDBLOCK) = .wouldBlock ∧
    ((e = EAGAIN ∨ e = EWOULDBLOCK) → processReceive (.fail e) = .wouldBlock) ∧
    (e ≠ EAGAIN → e ≠ EWOULDBLOCK → processReceive (.fail e) = .recvError) ∧
    (∀ b, processReceive (.fail e) ≠ .timeout b ∧
          processReceive (.fail e) ≠ .contentChange b ∧
          processReceive (.fail e) ≠ .unexpectedLength ∧
          processReceive (.fail e) ≠ .unexpectedOpcode) := by
  refine ⟨by simp [processReceive], by simp [processReceive], ?_, ?_, ?_⟩
  · rintro (h | h) <;> simp [processReceive, h]
  · intro h1 h2
    simp [processReceive, h1, h2]
  · intro b
    by_cases h : e = EAGAIN
    · simp [processReceive, h]
    · rw [show EAGAIN = 11 from rfl] at h
      simp [processReceive, EAGAIN, EWOULDBLOCK, h]

/-- Witness for C5 at the concrete errno values 11 (would-block) and 5. -/
theorem processReceive_wouldblock_contract_witness :
    processReceive (.fail 5) = .recvError :=
  (processReceive_wouldblock_contract 5).2.2.2.1 (by decide) (by decide)

/-!
## Encoder theorems
-/

/-- C3: createTxSend with N input frames emits exactly N message buffers,
one per input frame in input order, each a single-frame TX_SEND message
with frame count 1 carrying the i-th input frame (its classic view when the
variant is classic); no buffer carries more than one frame. -/
theorem createTxSend_one_message_per_frame (frames : List CanfdFrame) (isCANFD : Bool)
    (hne : frames ≠ []) :
    (createTxSend frames isCANFD).length = frames.length ∧
    ∀ i f, frames.get? i = some f →
      ∃ m, (createTxSend frames isCANFD).get? i = some m ∧
        m.head.opcode = TX_SEND ∧
        m.head.nframes = 1 ∧
        m.storedFrameCount = 1 ∧
        (isCANFD = true → m.storedCanfdFrames = [f]) ∧
        (isCANFD = false → m.storedCanFrames = [asCanFrame f]) := by
  refine ⟨List.length_map _ _, ?_⟩
  intro i f hf
  refine ⟨txSendMsg isCANFD f, ?_, ?_⟩
  · rw [createTxSend, List.get?_map, hf]
    rfl
  · cases isCANFD <;>
      simp [txSendMsg, BcmMsg.head, BcmMsg.storedFrameCount,
        BcmMsg.storedCanFrames, BcmMsg.storedCanfdFrames]

/-- Witness for C3 on the one-element classic frame array. -/
theorem createTxSend_one_message_per_frame_witness :
    (createTxSend [exFrame1] false).length = [exFrame1].length :=
  (createTxSend_one_message_per_frame [exFrame1] false (by decide)).1

/-- C2: createTxSetupSequence on a non-empty frame array emits exactly one
multi-frame TX_SETUP message; its header identifier is the identifier of
frames[0] regardless of the identifiers of the other embedded frames, and
all input frames travel in that single buffer in input order. -/
theorem createTxSetupSequence_single_message (frames : List CanfdFrame) (count : Nat)
    (ival1 ival2 : BcmTimeval) (isCANFD : Bool) (hne : frames ≠ []) :
    ∃ m, createTxSetupSequence frames count ival1 ival2 isCANFD = [m] ∧
      m.head.opcode = TX_SETUP ∧
      m.head.can_id = (frames.head?.getD zeroCanfdFrame).can_id ∧
      m.head.nframes = frames.length ∧
      (isCANFD = true → m.storedCanfdFrames = frames) ∧
      (isCANFD = false → m.storedCanFrames = frames.map asCanFrame) := by
  cases isCANFD
  · refine ⟨_, rfl, rfl, rfl, rfl, by simp, ?_⟩
    intro _
    show ((frames.map asCanFrame ++
        List.replicate (MAXFRAMES - frames.length) zeroCanFrame).take frames.length) =
      frames.map asCanFrame
    rw [← List.length_map frames asCanFrame, List.take_left]
  · refine ⟨_, rfl, rfl, rfl, rfl, ?_, by simp⟩
    intro _
    show ((frames ++
        List.replicate (MAXFRAMES - frames.length) zeroCanfdFrame).take frames.length) =
      frames
    rw [List.take_left]

/-- Witness for C2 on the two-element classic frame array with distinct
identifiers. -/
theorem createTxSetupSequence_single_message_witness :
    ∃ m, createTxSetupSequence [exFrame1, exFrame2] 10 exShort exLong false = [m] ∧
      m.head.opcode = TX_SETUP ∧
      m.head.can_id = ([exFrame1, exFrame2].head?.getD zeroCanfdFrame).can_id ∧
      m.head.nframes = [exFrame1, exFrame2].length ∧
      (false = true → m.storedCanfdFrames = [exFrame1, exFrame2]) ∧
      (false = false → m.storedCanFrames = [exFrame1, exFrame2].map asCanFrame) :=
  createTxSetupSequence_single_message [exFrame1, exFrame2] 10 exShort exLong false (by decide)

/-- Header and frame-count fields of the per-iteration buffer of
createTxSetup, for both variants. -/
theorem txSetupMsg_fields (b : Bool) (f : CanfdFrame) (c : Nat) (t1 t2 : BcmTimeval) :
    (txSetupMsg b f c t1 t2).head.opcode = TX_SETUP ∧
    (txSetupMsg b f c t1 t2).head.can_id = f.can_id ∧
    (txSetupMsg b f c t1 t2).head.count = c ∧
    (txSetupMsg b f c t1 t2).head.ival1 = t1 ∧
    (txSetupMsg b f c t1 t2).head.ival2 = t2 ∧
    (txSetupMsg b f c t1 t2).head.nframes = 1 ∧
    (txSetupMsg b f c t1 t2).storedFrameCount = 1 := by
  cases b <;>
    simp [txSetupMsg, BcmMsg.head, asCanFrame, BcmMsg.storedFrameCount,
      BcmMsg.storedCanFrames, BcmMsg.storedCanfdFrames]

/-- Elementwise description of the createTxSetup loop when every parameter
array is long enough: the loop completes without an out-of-bounds read,
emits one message per frame and the i-th message is built from the i-th
entries of the four arrays. -/
theorem createTxSetupGo_spec (b : Bool) (fs : List CanfdFrame) :
    ∀ (cs : List Nat) (t1s t2s : List BcmTimeval),
    fs.length ≤ cs.length → fs.length ≤ t1s.length → fs.length ≤ t2s.length →
    (createTxSetupGo b fs cs t1s t2s).2 = true ∧
    (createTxSetupGo b fs cs t1s t2s).1.length = fs.length ∧
    ∀ i f c t1 t2, fs.get? i = some f → cs.get? i = some c →
      t1s.get? i = some t1 → t2s.get? i = some t2 →
      (createTxSetupGo b fs cs t1s t2s).1.get? i = some (txSetupMsg b f c t1 t2) := by
  induction fs with
  | nil =>
    intro cs t1s t2s _ _ _
    refine ⟨rfl, rfl, ?_⟩
    intro i f c t1 t2 hf _ _ _
    simp at hf
  | cons f0 fs ih =>
    intro cs t1s t2s h1 h2 h3
    cases cs with
    | nil => simp at h1
    | cons c0 cs =>
      cases t1s with
      | nil => simp at h2
      | cons t10 t1s =>
        cases t2s with
        | nil => simp at h3
        | cons t20 t2s =>
          have h1' : fs.length ≤ cs.length := by simpa using h1
          have h2' : fs.length ≤ t1s.length := by simpa using h2
          have h3' : fs.length ≤ t2s.length := by simpa using h3
          obtain ⟨hok, hlen, hidx⟩ := ih cs t1s t2s h1' h2' h3'
          refine ⟨by simpa [createTxSetupGo] using hok,
            by simp [createTxSetupGo, hlen], ?_⟩
          intro i f c t1 t2 hf hc ht1 ht2
          cases i with
          | zero =>
            rw [List.get?_cons_zero] at hf hc ht1 ht2
            injection hf with hf
            injection hc with hc
            injection ht1 with ht1
            injection ht2 with ht2
            subst hf hc ht1 ht2
            simp [createTxSetupGo]
          | succ i =>
            rw [List.get?_cons_succ] at hf hc ht1 ht2
            simpa [createTxSetupGo] using hidx i f c t1 t2 hf hc ht1 ht2

/-- C6: the independent-task scenario: createTxSetup on the classic frames
0x123 (4 bytes) and 0x345 (3 bytes) with counts [10, 5], short intervals
[0 s / 500 us] each and long intervals [1 s / 0] each emits exactly two
single-frame TX_SETUP buffers, the first with header identifier 0x123,
count 10 and its own interval pair, the second with header identifier
0x345, count 5 and its own interval pair; in general message i carries
frame i's own identifier and the i-th (count, ival1, ival2) triple. -/
theorem createTxSetup_independent_scenario :
    ((createTxSetup [exFrame1, exFrame2] [10, 5] [exShort, exShort] [exLong, exLong]
        false).1.map
        (fun m => (m.head.opcode, m.head.can_id, m.head.count, m.head.ival1,
          m.head.ival2, m.head.nframes, m.storedFrameCount)) =
      [(TX_SETUP, 0x123, 10, exShort, exLong, 1, 1),
       (TX_SETUP, 0x345, 5, exShort, exLong, 1, 1)]) ∧
    ∀ (b : Bool) (fs : List CanfdFrame) (cs : List Nat) (t1s t2s : List BcmTimeval),
      fs.length = cs.length → fs.length = t1s.length → fs.length = t2s.length →
      (createTxSetup fs cs t1s t2s b).1.length = fs.length ∧
      ∀ i f c t1 t2, fs.get? i = some f → cs.get? i = some c →
        t1s.get? i = some t1 → t2s.get? i = some t2 →
        ∃ m, (createTxSetup fs cs t1s t2s b).1.get? i = some m ∧
          m.head.opcode = TX_SETUP ∧ m.head.can_id = f.can_id ∧
          m.head.count = c ∧ m.head.ival1 = t1 ∧ m.head.ival2 = t2 ∧
          m.head.nframes = 1 ∧ m.storedFrameCount = 1 := by
  constructor
  · rfl
  · intro b fs cs t1s t2s he1 he2 he3
    obtain ⟨_, hlen, hidx⟩ :=
      createTxSetupGo_spec b fs cs t1s t2s he1.le he2.le he3.le
    refine ⟨hlen, ?_⟩
    intro i f c t1 t2 hf hc ht1 ht2
    exact ⟨txSetupMsg b f c t1 t2, hidx i f c t1 t2 hf hc ht1 ht2,
      txSetupMsg_fields b f c t1 t2⟩

/-- Witness for C6's general part on a one-element input. -/
theorem createTxSetup_independent_scenario_witness :
    (createTxSetup [exFrame1] [7] [exShort] [exLong] true).1.length =
      [exFrame1].length :=
  (createTxSetup_independent_scenario.2 true [exFrame1] [7] [exShort] [exLong]
    rfl rfl rfl).1

/-- C7 counterexample: calling createTxSetup with two frames but a
one-element counts array does not fail before any message is encoded or
sent: the message for index 0 is built and passed to send, and only then
does the loop reach the out-of-bounds read of count[1]; no ArityMismatch
error value exists anywhere in the sources. -/
theorem createTxSetup_no_arity_check :
    (createTxSetup [exFrame1, exFrame2] [10] [exShort, exShort] [exLong, exLong]
        false).1.length = 1 ∧
    (createTxSetup [exFrame1, exFrame2] [10] [exShort, exShort] [exLong, exLong]
        false).2 = false ∧
    (createTxSetup [exFrame1, exFrame2] [10] [exShort, exShort] [exLong, exLong]
        false).1 ≠ [] := by
  refine ⟨rfl, rfl, by decide⟩

/-- C7 amended: createTxSetup performs no arity check.  It emits (and
sends) one message per index until one of the four input arrays is
exhausted — that is, min of the four lengths many messages — and the run is
free of out-of-bounds reads exactly when the counts and both interval
arrays are at least as long as the frame array; no ArityMismatch error is
ever reported. -/
theorem createTxSetup_arity_behaviour (b : Bool) (fs : List CanfdFrame)
    (cs : List Nat) (t1s t2s : List BcmTimeval) :
    (createTxSetup fs cs t1s t2s b).1.length =
      min fs.length (min cs.length (min t1s.length t2s.length)) ∧
    ((createTxSetup fs cs t1s t2s b).2 = true ↔
      fs.length ≤ cs.length ∧ fs.length ≤ t1s.length ∧ fs.length ≤ t2s.length) := by
  induction fs generalizing cs t1s t2s with
  | nil => simp [createTxSetup, createTxSetupGo]
  | cons f fs ih =>
    cases cs with
    | nil => simp [createTxSetup, createTxSetupGo]
    | cons c cs =>
      cases t1s with
      | nil =>
        constructor
        · simp [createTxSetup, createTxSetupGo]
        · simp [createTxSetup, createTxSetupGo]
      | cons t1 t1s =>
        cases t2s with
        | nil =>
          constructor
          · simp [createTxSetup, createTxSetupGo]
          · simp [createTxSetup, createTxSetupGo]
        | cons t2 t2s =>
          obtain ⟨hl, hiff⟩ := ih cs t1s t2s
          constructor
          · simp only [createTxSetup, createTxSetupGo, List.length_cons]
            simp only [createTxSetup] at hl
            rw [hl]
            omega
          · simp only [createTxSetup, createTxSetupGo, List.length_cons]
            simp only [createTxSetup] at hiff
            rw [hiff]
            omega

/-- Witness for C7's amended theorem at the mismatched concrete input. -/
theorem createTxSetup_arity_behaviour_witness :
    (createTxSetup [exFrame1, exFrame2] [10] [exShort, exShort] [exLong, exLong]
        false).1.length =
      min [exFrame1, exFrame2].length
        (min [(10 : Nat)].length (min [exShort, exShort].length [exLong, exLong].length)) :=
  (createTxSetup_arity_behaviour false [exFrame1, exFrame2] [10] [exShort, exShort]
    [exLong, exLong]).1

/-- C9: every message produced by createTxSetupUpdate is a single-frame
TX_SETUP message carrying neither SETTIMER nor STARTTIMER — so the timing
of the existing schedule is not re-armed — and carrying TX_ANNOUNCE exactly
when the announce parameter is set. -/
theorem createTxSetupUpdate_no_timer_flags (frames : List CanfdFrame)
    (isCANFD announce : Bool) (m : BcmMsg)
    (hm : m ∈ createTxSetupUpdate frames isCANFD announce) :
    m.head.opcode = TX_SETUP ∧
    m.head.nframes = 1 ∧
    m.storedFrameCount = 1 ∧
    m.head.flags &&& SETTIMER = 0 ∧
    m.head.flags &&& STARTTIMER = 0 ∧
    (m.head.flags &&& TX_ANNOUNCE ≠ 0 ↔ announce = true) := by
  rw [createTxSetupUpdate] at hm
  obtain ⟨f, -, rfl⟩ := List.mem_map.mp hm
  cases isCANFD <;> cases announce <;>
    refine ⟨by simp [txSetupUpdateMsg, BcmMsg.head],
      by simp [txSetupUpdateMsg, BcmMsg.head],
      by simp [txSetupUpdateMsg, BcmMsg.storedFrameCount,
        BcmMsg.storedCanFrames, BcmMsg.storedCanfdFrames],
      by simp [txSetupUpdateMsg, BcmMsg.head] <;> decide,
      by simp [txSetupUpdateMsg, BcmMsg.head] <;> decide,
      by simp [txSetupUpdateMsg, BcmMsg.head] <;> decide⟩

/-- Witness for C9 on a one-element update with announce set. -/
theorem createTxSetupUpdate_no_timer_flags_witness :
    (txSetupUpdateMsg false true exFrame1).head.opcode = TX_SETUP ∧
    (txSetupUpdateMsg false true exFrame1).head.nframes = 1 ∧
    (txSetupUpdateMsg false true exFrame1).storedFrameCount = 1 ∧
    (txSetupUpdateMsg false true exFrame1).head.flags &&& SETTIMER = 0 ∧
    (txSetupUpdateMsg false true exFrame1).head.flags &&& STARTTIMER = 0 ∧
    ((txSetupUpdateMsg false true exFrame1).head.flags &&& TX_ANNOUNCE ≠ 0 ↔ true = true) :=
  createTxSetupUpdate_no_timer_flags [exFrame1] false true
    (txSetupUpdateMsg false true exFrame1) (by decide)

/-- Every entry of a replicated list read through get? is either absent or
the replicated element. -/
theorem replicate_get?_cases {α : Type} (z : α) (k j : Nat) :
    (List.replicate k z).get? j = none ∨ (List.replicate k z).get? j = some z := by
  cases h : (List.replicate k z).get? j with
  | none => exact Or.inl rfl
  | some x =>
    right
    have hx : x = z := List.eq_of_mem_replicate (List.get?_mem h)
    rw [hx]

/-- C10: every encode operation zeroes its buffer (memset) before the field
assignments, so whatever the operation does not assign is zero in the
emitted buffer: send-once and cyclic-update messages carry zero count and
zero intervals (and, in the classic send branch, zero flags);
the sequence setup leaves every frame slot past the embedded frames
all-zero; the header-only delete and id-filter messages carry zero count,
intervals and frame count; and the classic mask-filter message carries zero
flags.  This covers every outbound message of every operation with an
unassigned field (createTxSetup assigns every header field, so nothing is
left for the memset there). -/
theorem encode_zero_initialized :
    (∀ (frames : List CanfdFrame) (b : Bool) (m : BcmMsg), m ∈ createTxSend frames b →
      m.head.count = 0 ∧ m.head.ival1 = zeroTimeval ∧ m.head.ival2 = zeroTimeval ∧
      (b = false → m.head.flags = 0)) ∧
    (∀ (frames : List CanfdFrame) (b a : Bool) (m : BcmMsg),
      m ∈ createTxSetupUpdate frames b a →
      m.head.count = 0 ∧ m.head.ival1 = zeroTimeval ∧ m.head.ival2 = zeroTimeval) ∧
    (∀ (frames : List CanfdFrame) (count : Nat) (i1 i2 : BcmTimeval) (b : Bool) (m : BcmMsg),
      m ∈ createTxSetupSequence frames count i1 i2 b →
      ∀ i, frames.length ≤ i →
        (m.canSlots.get? i = none ∨ m.canSlots.get? i = some zeroCanFrame) ∧
        (m.canfdSlots.get? i = none ∨ m.canfdSlots.get? i = some zeroCanfdFrame)) ∧
    (∀ (c : Nat) (b : Bool) (m : BcmMsg), m ∈ createTxDelete c b →
      m.head.count = 0 ∧ m.head.ival1 = zeroTimeval ∧ m.head.ival2 = zeroTimeval ∧
      m.head.nframes = 0) ∧
    (∀ (c : Nat) (b : Bool) (m : BcmMsg), m ∈ createRxSetupCanID c b →
      m.head.count = 0 ∧ m.head.ival1 = zeroTimeval ∧ m.head.ival2 = zeroTimeval ∧
      m.head.nframes = 0) ∧
    (∀ (c : Nat) (mask : CanfdFrame) (b : Bool) (m : BcmMsg), m ∈ createRxSetupMask c mask b →
      m.head.count = 0 ∧ m.head.ival1 = zeroTimeval ∧ m.head.ival2 = zeroTimeval ∧
      (b = false → m.head.flags = 0)) ∧
    (∀ (c : Nat) (b : Bool) (m : BcmMsg), m ∈ createRxDelete c b →
      m.head.count = 0 ∧ m.head.ival1 = zeroTimeval ∧ m.head.ival2 = zeroTimeval ∧
      m.head.nframes = 0) := by
  refine ⟨?_, ?_, ?_, ?_, ?_, ?_, ?_⟩
  · intro frames b m hm
    rw [createTxSend] at hm
    obtain ⟨f, -, rfl⟩ := List.mem_map.mp hm
    cases b <;> simp [txSendMsg, BcmMsg.head, zeroMsgHead]
  · intro frames b a m hm
    rw [createTxSetupUpdate] at hm
    obtain ⟨f, -, rfl⟩ := List.mem_map.mp hm
    cases b <;> cases a <;> simp [txSetupUpdateMsg, BcmMsg.head, zeroMsgHead]
  · intro frames count i1 i2 b m hm i hi
    cases b <;> simp [createTxSetupSequence] at hm <;> subst hm
    · constructor
      · have hlen : (frames.map asCanFrame).length ≤ i := by
          simpa using hi
        simp only [BcmMsg.canSlots]
        rw [List.get?_append_right hlen]
        exact replicate_get?_cases zeroCanFrame _ _
      · exact Or.inl (by simp [BcmMsg.canfdSlots])
    · constructor
      · exact Or.inl (by simp [BcmMsg.canSlots])
      · simp only [BcmMsg.canfdSlots]
        rw [List.get?_append_right hi]
        exact replicate_get?_cases zeroCanfdFrame _ _
  · intro c b m hm
    simp [createTxDelete] at hm
    subst hm
    simp [BcmMsg.head, zeroMsgHead]
  · intro c b m hm
    simp [createRxSetupCanID] at hm
    subst hm
    simp [BcmMsg.head, zeroMsgHead]
  · intro c mask b m hm
    cases b <;> simp [createRxSetupMask] at hm <;> subst hm <;>
      simp [BcmMsg.head, zeroMsgHead]
  · intro c b m hm
    simp [createRxDelete] at hm
    subst hm
    simp [BcmMsg.head, zeroMsgHead]

/-- Witness for C10 on a concrete classic send-once message. -/
theorem encode_zero_initialized_witness :
    (txSendMsg false exFrame1).head.count = 0 ∧
    (txSendMsg false exFrame1).head.ival1 = zeroTimeval ∧
    (txSendMsg false exFrame1).head.ival2 = zeroTimeval ∧
    (false = false → (txSendMsg false exFrame1).head.flags = 0) :=
  encode_zero_initialized.1 [exFrame1] false (txSendMsg false exFrame1) (by decide)

/-- C8: frame construction — modelled from the spec, the repository has no
frame constructor — rejects a classic payload of 9 bytes and an FD payload
of 65 bytes with InvalidFrameLength, accepts 8 and 64 bytes, and in
general rejects exactly the payloads longer than the variant's maximum
before any encode takes place. -/
theorem mkFrame_length_check :
    mkFrame false 0x123 (List.replicate 9 0xAB) = .error .invalidFrameLength ∧
    (∃ fr, mkFrame false 0x123 (List.replicate 8 0xAB) = .ok fr ∧ fr.len = 8) ∧
    mkFrame true 0x567 (List.replicate 65 0xAB) = .error .invalidFrameLength ∧
    (∃ fr, mkFrame true 0x567 (List.replicate 64 0xAB) = .ok fr ∧ fr.len = 64) ∧
    ∀ (b : Bool) (cid : Nat) (p : List Nat), p.length > variantMaxLen b →
      mkFrame b cid p = .error .invalidFrameLength := by
  refine ⟨rfl, ⟨_, rfl, rfl⟩, rfl, ⟨_, rfl, rfl⟩, ?_⟩
  intro b cid p hp
  simp [mkFrame, hp]

/-- Witness for C8's general part at a 70-byte FD payload. -/
theorem mkFrame_length_check_witness :
    mkFrame true 0 (List.replicate 70 0) = .error .invalidFrameLength :=
  mkFrame_length_check.2.2.2.2 true 0 (List.replicate 70 0) (by decide)

end CanBcm
